import Mathlib

/-!
Verification of the core calculation functions of the "Cliently" report
generator (src/main.py): `billCalc`, `suggestion` and `dateCalc`.

The embedding models Python values as an inductive type (so that the
`isinstance` type checks, including the bool-is-an-int subtyping, are
faithful), numeric arithmetic as exact rationals, Python `round(x, 2)` as
round-half-to-even at two decimals, and `datetime.date` arithmetic through
the proleptic Gregorian ordinal used by CPython (`date.toordinal`).
-/

/-- A Python runtime value, restricted to the kinds the program can feed the
three functions: ints, floats, bools and strings. -/
inductive PyVal where
  | int (n : ℤ)
  | float (q : ℚ)
  | bool (b : Bool)
  | str (s : String)
  deriving DecidableEq

/-- The two exception kinds the three functions raise. -/
inductive PyError where
  | typeError (msg : String)
  | valueError (msg : String)
  deriving DecidableEq

instance {ε α : Type} [DecidableEq ε] [DecidableEq α] : DecidableEq (Except ε α) :=
  fun a b =>
    match a, b with
    | .error e, .error f => by
        cases h : decide (e = f) with
        | true => exact isTrue (by simp_all)
        | false => exact isFalse (by simp_all)
    | .error _, .ok _ => isFalse (by simp)
    | .ok _, .error _ => isFalse (by simp)
    | .ok x, .ok y => by
        cases h : decide (x = y) with
        | true => exact isTrue (by simp_all)
        | false => exact isFalse (by simp_all)

/-- `isinstance(x, (int, float))`: Python's `bool` is a subclass of `int`,
so booleans pass this check too. -/
def isNumeric : PyVal → Bool
  | .int _ => true
  | .float _ => true
  | .bool _ => true
  | .str _ => false

/-- `isinstance(x, int)`: Python's `bool` is a subclass of `int`. -/
def isIntLike : PyVal → Bool
  | .int _ => true
  | .bool _ => true
  | _ => false

/-- Numeric value of a Python value (True counts as 1, False as 0). -/
def toRat : PyVal → ℚ
  | .int n => (n : ℚ)
  | .float q => q
  | .bool b => if b then 1 else 0
  | .str _ => 0

/-- Integer value of an int-like Python value (True counts as 1, False as 0). -/
def asInt : PyVal → ℤ
  | .int n => n
  | .bool b => if b then 1 else 0
  | _ => 0

/-- Round a rational to the nearest integer, ties to even: the semantics of
Python's builtin `round`. -/
def roundHalfEven (q : ℚ) : ℤ :=
  if q - ⌊q⌋ < 1 / 2 then ⌊q⌋
  else if 1 / 2 < q - ⌊q⌋ then ⌊q⌋ + 1
  else if ⌊q⌋ % 2 = 0 then ⌊q⌋ else ⌊q⌋ + 1

/-- Python's `round(q, 2)` on an exact rational. -/
def round2 (q : ℚ) : ℚ := (roundHalfEven (q * 100) : ℚ) / 100

/-- `billCalc` of src/main.py, lines 19-61: validates the rate and the hours
and returns `round(rate*hours + 200, 2)`. -/
def billCalc (rate hours : PyVal) : Except PyError ℚ :=
  if ¬ isNumeric rate ∨ ¬ isNumeric hours then
    .error (.typeError "Rate and hours consulted must be an integer or float")
  else if toRat rate < 0 ∨ toRat hours < 0 then
    .error (.valueError "Rate and hours consulted must be 0 or more")
  else if toRat hours > 1000 then
    .error (.valueError "The hours consulted was past the realistic threshold of 1000")
  else
    .ok (round2 (toRat rate * toRat hours + 200))

/-- `suggestion` of src/main.py, lines 63-112: validates the three ratings
and maps their sum to a recommendation string. A fall-through of the final
if/elif chain would return Python's `None`, modelled as `Option.none`. -/
def suggestion (strength flexibility communication : PyVal) :
    Except PyError (Option String) :=
  if ¬ isIntLike strength ∨ ¬ isIntLike flexibility ∨ ¬ isIntLike communication then
    .error (.typeError "All three ratings must be an integer")
  else if asInt strength < 1 ∨ asInt flexibility < 1 ∨ asInt communication < 1 then
    .error (.valueError "All three ratings must be 1 or more and 10 or less")
  else if asInt strength > 10 ∨ asInt flexibility > 10 ∨ asInt communication > 10 then
    .error (.valueError "All three ratings must be 1 or more and 10 or less")
  else if 1 ≤ asInt strength + asInt flexibility + asInt communication ∧
      asInt strength + asInt flexibility + asInt communication ≤ 14 then
    .ok (some "Drop the case")
  else if 14 < asInt strength + asInt flexibility + asInt communication ∧
      asInt strength + asInt flexibility + asInt communication ≤ 20 then
    .ok (some "Let client decide")
  else if 20 < asInt strength + asInt flexibility + asInt communication ∧
      asInt strength + asInt flexibility + asInt communication ≤ 30 then
    .ok (some "Pursue the case")
  else .ok none

/-- True for Gregorian leap years: the rule `datetime.date` uses. -/
def isLeapGregorian (y : ℤ) : Bool :=
  y % 4 = 0 ∧ (y % 100 ≠ 0 ∨ y % 400 = 0)

/-- Length of a month in the real Gregorian calendar, as `datetime` uses. -/
def daysInMonth (y m : ℤ) : ℤ :=
  if m = 2 then (if isLeapGregorian y then 29 else 28)
  else if m = 4 ∨ m = 6 ∨ m = 9 ∨ m = 11 then 30
  else 31

/-- Days before January 1st of year `y` in the proleptic Gregorian calendar
(CPython's `_days_before_year`); meaningful for `y ≥ 1`. -/
def daysBeforeYear (y : ℤ) : ℤ :=
  365 * (y - 1) + (y - 1) / 4 - (y - 1) / 100 + (y - 1) / 400

/-- Days in months `1..n` of year `y`. -/
def cumDaysThrough (y : ℤ) : Nat → ℤ
  | 0 => 0
  | n + 1 => cumDaysThrough y n + daysInMonth y (n + 1)

/-- CPython's `date.toordinal`: day number with 0001-01-01 as day 1. -/
def toOrdinal (y m d : ℤ) : ℤ :=
  daysBeforeYear y + cumDaysThrough y (m - 1).toNat + d

/-- The hardcoded reference date `datetime.date(2021, 6, 15)` of
src/main.py line 177, as an ordinal. -/
def refOrdinal : ℤ := toOrdinal 2021 6 15

/-- The `datetime.date(year, month, day)` constructor's own field validation
(CPython `_check_date_fields`): it raises ValueError for a year outside
1..9999 or a day that does not exist in the real Gregorian month. -/
def mkDate (y m d : ℤ) : Except PyError Unit :=
  if y < 1 ∨ 9999 < y then .error (.valueError "year is out of range")
  else if m < 1 ∨ 12 < m then .error (.valueError "month must be in 1..12")
  else if d < 1 ∨ daysInMonth y m < d then
    .error (.valueError "day is out of range for month")
  else .ok ()

/-- The day-of-month validation chain of `dateCalc` (src/main.py lines
154-172): `true` iff the chain raises. Month 2 uses the simplified
`year % 4` leap rule of the source. -/
def monthDayCheckFails (y m d : ℤ) : Bool :=
  if m = 1 ∨ m = 3 ∨ m = 5 ∨ m = 7 ∨ m = 8 ∨ m = 10 ∨ m = 12 then
    decide (31 < d ∨ d < 1)
  else if m = 2 then
    if y % 4 ≠ 0 then decide (28 < d ∨ d < 1) else decide (29 < d ∨ d < 1)
  else if m = 4 ∨ m = 6 ∨ m = 9 ∨ m = 11 then
    decide (30 < d ∨ d < 1)
  else
    false

/-- The body of `dateCalc` after its type check (src/main.py lines 148-188):
documented range checks, then `datetime.date` construction, then the
past-date check, then the day difference. -/
def dateCalcChecked (year month day : ℤ) : Except PyError ℤ :=
  if 2100 ≤ year then .error (.valueError "Courtdate is too far from today")
  else if month < 1 ∨ 12 < month then
    .error (.valueError "The month entered does not exist")
  else if monthDayCheckFails year month day then
    .error (.valueError "The date entered does not exist")
  else
    match mkDate year month day with
    | .error e => .error e
    | .ok _ =>
        if toOrdinal year month day < refOrdinal then
          .error (.valueError "Courtdate cannot be in the past")
        else
          .ok (toOrdinal year month day - refOrdinal)

/-- `dateCalc` of src/main.py, lines 114-188. -/
def dateCalc (year month day : PyVal) : Except PyError ℤ :=
  if ¬ isIntLike year ∨ ¬ isIntLike month ∨ ¬ isIntLike day then
    .error (.typeError "All three parameters must be an integer")
  else
    dateCalcChecked (asInt year) (asInt month) (asInt day)

/-- Passing the documented validation of `dateCalc`: year below 2100, month
in range, and the simplified day-of-month chain does not raise. -/
def docValid (y m d : ℤ) : Prop :=
  y < 2100 ∧ 1 ≤ m ∧ m ≤ 12 ∧ monthDayCheckFails y m d = false

instance (y m d : ℤ) : Decidable (docValid y m d) := by
  unfold docValid; infer_instance

/-- The date is constructible by `datetime.date`: year in 1..9999 and the
day exists in the real Gregorian month. -/
def dateValid (y m d : ℤ) : Prop :=
  1 ≤ y ∧ y ≤ 9999 ∧ 1 ≤ m ∧ m ≤ 12 ∧ 1 ≤ d ∧ d ≤ daysInMonth y m

instance (y m d : ℤ) : Decidable (dateValid y m d) := by
  unfold dateValid; infer_instance

/-- `true` on `.error (.typeError _)` only. -/
def exceptIsTypeError {α : Type} : Except PyError α → Bool
  | .error (.typeError _) => true
  | _ => false

section

attribute [local semireducible] Rat.mul Rat.add Rat.sub Rat.inv Rat.ofScientific

/-- Sanity: the source file's own `assert` lines hold in the embedding. -/
theorem source_assert_lines_hold :
    billCalc (.int 300) (.int 8) = .ok 2600 ∧
    billCalc (.int 0) (.int 20) = .ok 200 ∧
    billCalc (.int 100000) (.int 0) = .ok 200 ∧
    billCalc (.float (499.88 : ℚ)) (.float (12.5 : ℚ)) = .ok (6448.5 : ℚ) ∧
    billCalc (.float (399.32 : ℚ)) (.int 15) = .ok (6189.8 : ℚ) ∧
    billCalc (.int 200) (.float (5.32843 : ℚ)) = .ok (1265.69 : ℚ) ∧
    suggestion (.int 1) (.int 1) (.int 1) = .ok (some "Drop the case") ∧
    suggestion (.int 10) (.int 10) (.int 10) = .ok (some "Pursue the case") ∧
    suggestion (.int 5) (.int 6) (.int 5) = .ok (some "Let client decide") ∧
    suggestion (.int 1) (.int 8) (.int 5) = .ok (some "Drop the case") ∧
    dateCalc (.int 2021) (.int 6) (.int 30) = .ok 15 ∧
    dateCalc (.int 2023) (.int 8) (.int 9) = .ok 785 ∧
    dateCalc (.int 2021) (.int 6) (.int 29) = .ok 14 ∧
    dateCalc (.int 2021) (.int 6) (.int 16) = .ok 1 := by
  decide

/-- The simplified day-of-month chain raises exactly on a day outside the
per-month range documented in the spec. -/
theorem monthDayCheckFails_iff (y m d : ℤ) (hm1 : 1 ≤ m) (hm2 : m ≤ 12) :
    monthDayCheckFails y m d = true ↔
      (d < 1 ∨ (if m = 2 then (if y % 4 = 0 then (29 : ℤ) else 28)
                else if m = 4 ∨ m = 6 ∨ m = 9 ∨ m = 11 then 30 else 31) < d) := by
  unfold monthDayCheckFails
  interval_cases m <;> norm_num <;>
    first
      | omega
      | (split_ifs <;> omega)

/-- `datetime.date` construction succeeds exactly on `dateValid` fields. -/
theorem mkDate_ok_of_dateValid (y m d : ℤ) (h : dateValid y m d) :
    mkDate y m d = .ok () := by
  obtain ⟨h1, h2, h3, h4, h5, h6⟩ := h
  unfold mkDate
  rw [if_neg (by omega), if_neg (by omega), if_neg (by omega)]

/-- `datetime.date` construction raises one of two ValueErrors when the
fields are not `dateValid` (given the month is in range). -/
theorem mkDate_error_of_not_dateValid (y m d : ℤ) (hm1 : 1 ≤ m) (hm2 : m ≤ 12)
    (h : ¬ dateValid y m d) :
    mkDate y m d = .error (.valueError "year is out of range") ∨
      mkDate y m d = .error (.valueError "day is out of range for month") := by
  unfold mkDate
  split_ifs with h1 h2 h3
  · exact Or.inl rfl
  · omega
  · exact Or.inr rfl
  · exact absurd ⟨by omega, by omega, hm1, hm2, by omega, by omega⟩ h

/-- Every error of `datetime.date` construction carries one of its three
field messages. -/
theorem mkDate_error_messages (y m d : ℤ) (e : PyError)
    (h : mkDate y m d = .error e) :
    e = .valueError "year is out of range" ∨
      e = .valueError "month must be in 1..12" ∨
      e = .valueError "day is out of range for month" := by
  unfold mkDate at h
  split_ifs at h <;> simp_all

/-- Under the documented validation the `dateCalc` body reaches the date
construction and the past-date check unchanged. -/
theorem dateCalcChecked_of_docValid (y m d : ℤ) (hv : docValid y m d) :
    dateCalcChecked y m d =
      match mkDate y m d with
      | .error e => .error e
      | .ok _ =>
          if toOrdinal y m d < refOrdinal then
            .error (.valueError "Courtdate cannot be in the past")
          else
            .ok (toOrdinal y m d - refOrdinal) := by
  obtain ⟨h1, h2, h3, h4⟩ := hv
  unfold dateCalcChecked
  rw [if_neg (by omega), if_neg (by omega), if_neg (by simp [h4])]

/-- Under the documented validation of a constructible date, the `dateCalc`
body is exactly the past-date check followed by the day difference. -/
theorem dateCalcChecked_of_valid (y m d : ℤ)
    (hv : docValid y m d) (hc : dateValid y m d) :
    dateCalcChecked y m d =
      if toOrdinal y m d < refOrdinal then
        .error (.valueError "Courtdate cannot be in the past")
      else
        .ok (toOrdinal y m d - refOrdinal) := by
  rw [dateCalcChecked_of_docValid y m d hv, mkDate_ok_of_dateValid y m d hc]

/-- `dateCalc` on int arguments passes the type check. -/
theorem dateCalc_int_eq (y m d : ℤ) :
    dateCalc (.int y) (.int m) (.int d) = dateCalcChecked y m d := by
  unfold dateCalc
  rw [if_neg (by simp [isIntLike])]
  rfl

/-- Rounding half-to-even never drops below an integer lower bound. -/
theorem le_roundHalfEven (z : ℤ) (q : ℚ) (h : (z : ℚ) ≤ q) :
    z ≤ roundHalfEven q := by
  have hz : z ≤ ⌊q⌋ := Int.le_floor.mpr h
  unfold roundHalfEven
  split_ifs <;> omega

/-- `round(q, 2)` never drops below 200 when `q` is at least 200. -/
theorem le_round2_of_le (q : ℚ) (h : (200 : ℚ) ≤ q) : (200 : ℚ) ≤ round2 q := by
  have h1 : ((20000 : ℤ) : ℚ) ≤ q * 100 := by push_cast; linarith
  have h2 : (20000 : ℤ) ≤ roundHalfEven (q * 100) := le_roundHalfEven _ _ h1
  have h3 : ((20000 : ℤ) : ℚ) ≤ (roundHalfEven (q * 100) : ℚ) := by exact_mod_cast h2
  unfold round2
  rw [le_div_iff₀ (by norm_num : (0 : ℚ) < 100)]
  push_cast at h3 ⊢
  linarith

/-- Evaluation of `billCalc` on validated numeric input. -/
theorem billCalc_ok_eval (rate hours : PyVal)
    (hr : isNumeric rate = true) (hh : isNumeric hours = true)
    (h0 : 0 ≤ toRat rate) (h1 : 0 ≤ toRat hours) (h2 : toRat hours ≤ 1000) :
    billCalc rate hours = .ok (round2 (toRat rate * toRat hours + 200)) := by
  unfold billCalc
  rw [if_neg (by simp [hr, hh]), if_neg (by push_neg; exact ⟨h0, h1⟩),
    if_neg (by exact not_lt.mpr h2)]

/-- C1: for numeric inputs (int or float) with `rate ≥ 0` and
`0 ≤ hours ≤ 1000`, `billCalc` returns `round(rate*hours + 200, 2)`: the
product plus the flat 200 fee, rounded to two decimal places. -/
theorem billCalc_formula_on_valid_input (rate hours : PyVal)
    (hr : isNumeric rate = true) (hh : isNumeric hours = true)
    (h0 : 0 ≤ toRat rate) (h1 : 0 ≤ toRat hours) (h2 : toRat hours ≤ 1000) :
    billCalc rate hours = .ok (round2 (toRat rate * toRat hours + 200)) :=
  billCalc_ok_eval rate hours hr hh h0 h1 h2

theorem billCalc_formula_on_valid_input_witness :
    isNumeric (.int 300) = true ∧ isNumeric (.int 8) = true ∧
    0 ≤ toRat (.int 300) ∧ 0 ≤ toRat (.int 8) ∧ toRat (.int 8) ≤ 1000 ∧
    billCalc (.int 300) (.int 8)
      = .ok (round2 (toRat (.int 300) * toRat (.int 8) + 200)) ∧
    round2 (toRat (.int 300) * toRat (.int 8) + 200) = 2600 :=
  ⟨rfl, rfl, by decide, by decide, by decide,
    billCalc_formula_on_valid_input (.int 300) (.int 8) rfl rfl
      (by decide) (by decide) (by decide),
    by decide⟩

/-- C3: for integer ratings each in `[1, 10]`, `suggestion` returns exactly
one of the three fixed strings determined by the total:
"Drop the case" when `total ≤ 14`, "Let client decide" when
`14 < total ≤ 20`, "Pursue the case" when `20 < total ≤ 30`, with the
boundaries 14, 20 and 30 inclusive as listed. -/
theorem suggestion_three_outcomes (s f c : ℤ)
    (hs1 : 1 ≤ s) (hs2 : s ≤ 10) (hf1 : 1 ≤ f) (hf2 : f ≤ 10)
    (hc1 : 1 ≤ c) (hc2 : c ≤ 10) :
    suggestion (.int s) (.int f) (.int c) =
      .ok (some (if s + f + c ≤ 14 then "Drop the case"
                 else if s + f + c ≤ 20 then "Let client decide"
                 else "Pursue the case")) := by
  unfold suggestion
  rw [if_neg (by simp [isIntLike])]
  simp only [asInt]
  rw [if_neg (by omega), if_neg (by omega)]
  split_ifs <;> first | rfl | omega

theorem suggestion_three_outcomes_witness :
    (1 : ℤ) ≤ 1 ∧ (1 : ℤ) ≤ 10 ∧ (1 : ℤ) ≤ 8 ∧ (8 : ℤ) ≤ 10 ∧
    (1 : ℤ) ≤ 5 ∧ (5 : ℤ) ≤ 10 ∧
    suggestion (.int 1) (.int 8) (.int 5) = .ok (some "Drop the case") := by
  refine ⟨by decide, by decide, by decide, by decide, by decide, by decide, ?_⟩
  have h := suggestion_three_outcomes 1 8 5 (by decide) (by decide) (by decide)
    (by decide) (by decide) (by decide)
  rw [if_pos (by decide : (1 : ℤ) + 8 + 5 ≤ 14)] at h
  exact h

/-- C7: for numeric `rate ≥ 0` and `0 ≤ hours ≤ 1000`, the bill returned by
`billCalc` is at least the flat 200 retainer fee. -/
theorem billCalc_at_least_retainer (rate hours : PyVal)
    (hr : isNumeric rate = true) (hh : isNumeric hours = true)
    (h0 : 0 ≤ toRat rate) (h1 : 0 ≤ toRat hours) (h2 : toRat hours ≤ 1000) :
    ∃ q, billCalc rate hours = .ok q ∧ (200 : ℚ) ≤ q := by
  refine ⟨_, billCalc_ok_eval rate hours hr hh h0 h1 h2, ?_⟩
  exact le_round2_of_le _ (by nlinarith [mul_nonneg h0 h1])

theorem billCalc_at_least_retainer_witness :
    isNumeric (.int 300) = true ∧ isNumeric (.int 8) = true ∧
    0 ≤ toRat (.int 300) ∧ 0 ≤ toRat (.int 8) ∧ toRat (.int 8) ≤ 1000 ∧
    ∃ q, billCalc (.int 300) (.int 8) = .ok q ∧ (200 : ℚ) ≤ q :=
  ⟨rfl, rfl, by decide, by decide, by decide,
    billCalc_at_least_retainer (.int 300) (.int 8) rfl rfl
      (by decide) (by decide) (by decide)⟩

/-- C2: for integer `year < 2100` and month in `1..12`, `dateCalc` raises
the date-does-not-exist ValueError exactly when the day is outside the
simplified per-month range: 31 days for months 1,3,5,7,8,10,12; 30 days
for 4,6,9,11; for month 2, 28 days when `year % 4 ≠ 0` and 29 otherwise.
In particular February 29 of any year divisible by 4 (1900 included) passes
this validation, and February 30 never does. -/
theorem dateCalc_simplified_day_validation (y m d : ℤ)
    (hy : y < 2100) (hm1 : 1 ≤ m) (hm2 : m ≤ 12) :
    dateCalc (.int y) (.int m) (.int d)
        = .error (.valueError "The date entered does not exist")
      ↔ (d < 1 ∨ (if m = 2 then (if y % 4 = 0 then (29 : ℤ) else 28)
                  else if m = 4 ∨ m = 6 ∨ m = 9 ∨ m = 11 then 30 else 31) < d) := by
  rw [dateCalc_int_eq]
  unfold dateCalcChecked
  rw [if_neg (by omega), if_neg (by omega)]
  by_cases hf : monthDayCheckFails y m d = true
  · rw [if_pos hf]
    simp only [true_iff]
    exact (monthDayCheckFails_iff y m d hm1 hm2).mp hf
  · rw [if_neg hf]
    constructor
    · intro hEq
      exfalso
      cases hmk : mkDate y m d with
      | error e =>
          rw [hmk] at hEq
          simp only [Except.error.injEq] at hEq
          rcases mkDate_error_messages y m d e hmk with h | h | h <;>
            subst h <;> exact absurd hEq (by decide)
      | ok u =>
          rw [hmk] at hEq
          split_ifs at hEq <;> simp at hEq
    · intro hR
      exact absurd ((monthDayCheckFails_iff y m d hm1 hm2).mpr hR) hf

theorem dateCalc_simplified_day_validation_witness :
    (1900 : ℤ) < 2100 ∧ (1 : ℤ) ≤ 2 ∧ (2 : ℤ) ≤ 12 ∧
    dateCalc (.int 1900) (.int 2) (.int 30)
      = .error (.valueError "The date entered does not exist") := by
  refine ⟨by decide, by decide, by decide, ?_⟩
  exact (dateCalc_simplified_day_validation 1900 2 30
    (by decide) (by decide) (by decide)).mpr (by decide)

/-- C4: for inputs that pass the documented validation and denote a
constructible calendar date, `dateCalc` raises the past-date ValueError
exactly when the date is strictly before the reference date 2021-06-15,
and otherwise returns the non-negative day-count difference (0 on the
reference date itself). -/
theorem dateCalc_difference_from_reference (y m d : ℤ)
    (hv : docValid y m d) (hc : dateValid y m d) :
    (dateCalc (.int y) (.int m) (.int d)
        = .error (.valueError "Courtdate cannot be in the past")
      ↔ toOrdinal y m d < refOrdinal) ∧
    (∀ n : ℤ, dateCalc (.int y) (.int m) (.int d) = .ok n →
      n = toOrdinal y m d - refOrdinal ∧ 0 ≤ n) ∧
    (refOrdinal ≤ toOrdinal y m d →
      dateCalc (.int y) (.int m) (.int d)
        = .ok (toOrdinal y m d - refOrdinal)) := by
  rw [dateCalc_int_eq, dateCalcChecked_of_valid y m d hv hc]
  refine ⟨?_, ?_, ?_⟩
  · split_ifs with hlt
    · simp [hlt]
    · simp [hlt]
  · intro n hn
    split_ifs at hn with hlt
    all_goals simp only [Except.ok.injEq] at hn
    omega
  · intro hge
    rw [if_neg (not_lt.mpr hge)]

theorem dateCalc_difference_from_reference_witness :
    docValid 2021 6 30 ∧ dateValid 2021 6 30 ∧
    refOrdinal ≤ toOrdinal 2021 6 30 ∧
    dateCalc (.int 2021) (.int 6) (.int 30) = .ok 15 ∧
    dateCalc (.int 2021) (.int 6) (.int 16) = .ok 1 := by
  refine ⟨by decide, by decide, by decide, ?_, by decide⟩
  have h := (dateCalc_difference_from_reference 2021 6 30
    (by decide) (by decide)).2.2 (by decide)
  rw [show toOrdinal 2021 6 30 - refOrdinal = (15 : ℤ) from by decide] at h
  exact h

/-- C10: some inputs pass every documented check of `dateCalc` yet denote
no constructible calendar date (year below `datetime`'s minimum, or
February 29 of a century non-leap year such as 1900); there `dateCalc`
raises the ValueError of the `datetime.date` construction itself, before
the past-date check, not one of the documented validation errors. -/
theorem dateCalc_unconstructible_date_errors (y m d : ℤ)
    (hv : docValid y m d) (hnc : ¬ dateValid y m d) :
    (dateCalc (.int y) (.int m) (.int d)
        = .error (.valueError "year is out of range") ∨
      dateCalc (.int y) (.int m) (.int d)
        = .error (.valueError "day is out of range for month")) ∧
    dateCalc (.int y) (.int m) (.int d)
      ≠ .error (.valueError "Courtdate cannot be in the past") ∧
    dateCalc (.int y) (.int m) (.int d)
      ≠ .error (.valueError "The date entered does not exist") ∧
    (∀ n : ℤ, dateCalc (.int y) (.int m) (.int d) ≠ .ok n) := by
  obtain ⟨h1, h2, h3, h4⟩ := hv
  rw [dateCalc_int_eq, dateCalcChecked_of_docValid y m d ⟨h1, h2, h3, h4⟩]
  rcases mkDate_error_of_not_dateValid y m d h2 h3 hnc with h | h <;>
    rw [h] <;>
    refine ⟨?_, ?_, ?_, fun n => ?_⟩ <;> simp

theorem dateCalc_unconstructible_date_errors_witness :
    docValid 1900 2 29 ∧ ¬ dateValid 1900 2 29 ∧
    dateCalc (.int 1900) (.int 2) (.int 29)
      = .error (.valueError "day is out of range for month") := by
  refine ⟨by decide, by decide, ?_⟩
  rcases (dateCalc_unconstructible_date_errors 1900 2 29
    (by decide) (by decide)).1 with h | h
  · exact absurd h (by decide)
  · exact h

/-- C5: `billCalc` raises TypeError exactly when rate or hours is not
numeric; on numeric inputs it raises ValueError exactly when the rate or
the hours is negative or the hours exceed 1000, and otherwise returns a
value without raising. -/
theorem billCalc_error_conditions (rate hours : PyVal) :
    (¬ (isNumeric rate = true ∧ isNumeric hours = true) →
      billCalc rate hours
        = .error (.typeError "Rate and hours consulted must be an integer or float")) ∧
    (isNumeric rate = true → isNumeric hours = true →
      ∀ msg, billCalc rate hours ≠ .error (.typeError msg)) ∧
    (isNumeric rate = true → isNumeric hours = true →
      ((∃ msg, billCalc rate hours = .error (.valueError msg)) ↔
        (toRat rate < 0 ∨ toRat hours < 0 ∨ 1000 < toRat hours))) ∧
    (isNumeric rate = true → isNumeric hours = true →
      0 ≤ toRat rate → 0 ≤ toRat hours → toRat hours ≤ 1000 →
      ∃ q, billCalc rate hours = .ok q) := by
  refine ⟨?_, ?_, ?_, ?_⟩
  · intro hn
    unfold billCalc
    rw [if_pos (by tauto)]
  · intro hr hh msg
    unfold billCalc
    rw [if_neg (by simp [hr, hh])]
    split_ifs <;> simp
  · intro hr hh
    unfold billCalc
    rw [if_neg (by simp [hr, hh])]
    split_ifs with h1 h2
    · exact ⟨fun _ => by tauto, fun _ => ⟨_, rfl⟩⟩
    · exact ⟨fun _ => by tauto, fun _ => ⟨_, rfl⟩⟩
    · constructor
      · rintro ⟨msg, hmsg⟩
        exact absurd hmsg (by simp)
      · intro hR
        exfalso
        push_neg at h1 h2
        rcases hR with h | h | h
        · linarith [h1.1]
        · linarith [h1.2]
        · linarith
  · intro hr hh h0 h1 h2
    exact ⟨_, billCalc_ok_eval rate hours hr hh h0 h1 h2⟩

theorem billCalc_error_conditions_witness :
    billCalc (.str "rate") (.int (-5))
      = .error (.typeError "Rate and hours consulted must be an integer or float") ∧
    (∃ msg, billCalc (.int (-3)) (.int 2000) = .error (.valueError msg)) := by
  constructor
  · exact (billCalc_error_conditions (.str "rate") (.int (-5))).1 (by decide)
  · exact ((billCalc_error_conditions (.int (-3)) (.int 2000)).2.2.1 rfl rfl).mpr
      (by decide)

/-- C6: `suggestion` raises TypeError exactly when an argument is not an
integer; on integer inputs it raises ValueError exactly when a rating is
below 1 or above 10 (so 0 and 11 always raise), and otherwise returns
without raising. -/
theorem suggestion_error_conditions (a b c : PyVal) :
    (¬ (isIntLike a = true ∧ isIntLike b = true ∧ isIntLike c = true) →
      suggestion a b c = .error (.typeError "All three ratings must be an integer")) ∧
    (isIntLike a = true → isIntLike b = true → isIntLike c = true →
      ∀ msg, suggestion a b c ≠ .error (.typeError msg)) ∧
    (isIntLike a = true → isIntLike b = true → isIntLike c = true →
      ((∃ msg, suggestion a b c = .error (.valueError msg)) ↔
        (asInt a < 1 ∨ asInt b < 1 ∨ asInt c < 1 ∨
          10 < asInt a ∨ 10 < asInt b ∨ 10 < asInt c))) ∧
    (isIntLike a = true → isIntLike b = true → isIntLike c = true →
      1 ≤ asInt a → asInt a ≤ 10 → 1 ≤ asInt b → asInt b ≤ 10 →
      1 ≤ asInt c → asInt c ≤ 10 →
      ∃ r, suggestion a b c = .ok r) := by
  refine ⟨?_, ?_, ?_, ?_⟩
  · intro hn
    unfold suggestion
    rw [if_pos (by tauto)]
  · intro ha hb hc msg
    unfold suggestion
    rw [if_neg (by simp [ha, hb, hc])]
    split_ifs <;> simp
  · intro ha hb hc
    unfold suggestion
    rw [if_neg (by simp [ha, hb, hc])]
    split_ifs with h1 h2 <;>
      first
        | exact ⟨fun _ => by omega, fun _ => ⟨_, rfl⟩⟩
        | exact ⟨fun hx => absurd hx.choose_spec (by simp),
            fun hR => absurd hR (by omega)⟩
  · intro ha hb hc h1 h2 h3 h4 h5 h6
    unfold suggestion
    rw [if_neg (by simp [ha, hb, hc]), if_neg (by omega), if_neg (by omega)]
    split_ifs <;> exact ⟨_, rfl⟩

theorem suggestion_error_conditions_witness :
    suggestion (.float (2.5 : ℚ)) (.int 3) (.int 3)
      = .error (.typeError "All three ratings must be an integer") ∧
    (∃ msg, suggestion (.int 0) (.int 11) (.int 5) = .error (.valueError msg)) := by
  constructor
  · exact (suggestion_error_conditions (.float (2.5 : ℚ)) (.int 3) (.int 3)).1
      (by decide)
  · exact ((suggestion_error_conditions (.int 0) (.int 11) (.int 5)).2.2.1
      rfl rfl rfl).mpr (by decide)

/-- C8: each function raises exactly the error of the first violated check,
in the documented order (type checks before value checks): `billCalc`
checks type, negativity, then hours > 1000; `suggestion` checks type,
ratings < 1, then ratings > 10; `dateCalc` checks type, year ≥ 2100,
month range, day range, then past date. An input violating several checks
gets the error of the earliest one. -/
theorem first_violated_check_determines_error :
    (∀ rate hours : PyVal, ¬ (isNumeric rate = true ∧ isNumeric hours = true) →
      billCalc rate hours
        = .error (.typeError "Rate and hours consulted must be an integer or float")) ∧
    (∀ rate hours : PyVal, isNumeric rate = true → isNumeric hours = true →
      (toRat rate < 0 ∨ toRat hours < 0) →
      billCalc rate hours
        = .error (.valueError "Rate and hours consulted must be 0 or more")) ∧
    (∀ rate hours : PyVal, isNumeric rate = true → isNumeric hours = true →
      0 ≤ toRat rate → 0 ≤ toRat hours → 1000 < toRat hours →
      billCalc rate hours
        = .error (.valueError "The hours consulted was past the realistic threshold of 1000")) ∧
    (∀ a b c : PyVal,
      ¬ (isIntLike a = true ∧ isIntLike b = true ∧ isIntLike c = true) →
      suggestion a b c = .error (.typeError "All three ratings must be an integer")) ∧
    (∀ a b c : PyVal, isIntLike a = true → isIntLike b = true → isIntLike c = true →
      (asInt a < 1 ∨ asInt b < 1 ∨ asInt c < 1) →
      suggestion a b c
        = .error (.valueError "All three ratings must be 1 or more and 10 or less")) ∧
    (∀ a b c : PyVal, isIntLike a = true → isIntLike b = true → isIntLike c = true →
      1 ≤ asInt a → 1 ≤ asInt b → 1 ≤ asInt c →
      (10 < asInt a ∨ 10 < asInt b ∨ 10 < asInt c) →
      suggestion a b c
        = .error (.valueError "All three ratings must be 1 or more and 10 or less")) ∧
    (∀ y m d : PyVal,
      ¬ (isIntLike y = true ∧ isIntLike m = true ∧ isIntLike d = true) →
      dateCalc y m d = .error (.typeError "All three parameters must be an integer")) ∧
    (∀ y m d : ℤ, 2100 ≤ y →
      dateCalc (.int y) (.int m) (.int d)
        = .error (.valueError "Courtdate is too far from today")) ∧
    (∀ y m d : ℤ, y < 2100 → (m < 1 ∨ 12 < m) →
      dateCalc (.int y) (.int m) (.int d)
        = .error (.valueError "The month entered does not exist")) ∧
    (∀ y m d : ℤ, y < 2100 → 1 ≤ m → m ≤ 12 → monthDayCheckFails y m d = true →
      dateCalc (.int y) (.int m) (.int d)
        = .error (.valueError "The date entered does not exist")) ∧
    (∀ y m d : ℤ, docValid y m d → dateValid y m d →
      toOrdinal y m d < refOrdinal →
      dateCalc (.int y) (.int m) (.int d)
        = .error (.valueError "Courtdate cannot be in the past")) := by
  refine ⟨?_, ?_, ?_, ?_, ?_, ?_, ?_, ?_, ?_, ?_, ?_⟩
  · intro rate hours hn
    unfold billCalc
    rw [if_pos (by tauto)]
  · intro rate hours hr hh hneg
    unfold billCalc
    rw [if_neg (by simp [hr, hh]), if_pos hneg]
  · intro rate hours hr hh h0 h1 hgt
    unfold billCalc
    rw [if_neg (by simp [hr, hh]), if_neg (by push_neg; exact ⟨h0, h1⟩), if_pos hgt]
  · intro a b c hn
    unfold suggestion
    rw [if_pos (by tauto)]
  · intro a b c ha hb hc hlow
    unfold suggestion
    rw [if_neg (by simp [ha, hb, hc]), if_pos hlow]
  · intro a b c ha hb hc h1 h2 h3 hhigh
    unfold suggestion
    rw [if_neg (by simp [ha, hb, hc]), if_neg (by omega), if_pos hhigh]
  · intro y m d hn
    unfold dateCalc
    rw [if_pos (by tauto)]
  · intro y m d hy
    rw [dateCalc_int_eq]
    unfold dateCalcChecked
    rw [if_pos hy]
  · intro y m d hy hm
    rw [dateCalc_int_eq]
    unfold dateCalcChecked
    rw [if_neg (by omega), if_pos hm]
  · intro y m d hy hm1 hm2 hf
    rw [dateCalc_int_eq]
    unfold dateCalcChecked
    rw [if_neg (by omega), if_neg (by omega), if_pos hf]
  · intro y m d hv hc hlt
    rw [dateCalc_int_eq, dateCalcChecked_of_valid y m d hv hc, if_pos hlt]

theorem first_violated_check_determines_error_witness :
    billCalc (.str "x") (.str "y")
      = .error (.typeError "Rate and hours consulted must be an integer or float") ∧
    billCalc (.int (-3)) (.int 2000)
      = .error (.valueError "Rate and hours consulted must be 0 or more") ∧
    billCalc (.int 1) (.int 1001)
      = .error (.valueError "The hours consulted was past the realistic threshold of 1000") ∧
    suggestion (.int 0) (.int 11) (.int 5)
      = .error (.valueError "All three ratings must be 1 or more and 10 or less") ∧
    dateCalc (.int 2200) (.int 0) (.int 99)
      = .error (.valueError "Courtdate is too far from today") ∧
    dateCalc (.int 2020) (.int 1) (.int 1)
      = .error (.valueError "Courtdate cannot be in the past") := by
  refine ⟨?_, ?_, ?_, ?_, ?_, ?_⟩
  · exact first_violated_check_determines_error.1 (.str "x") (.str "y") (by decide)
  · exact first_violated_check_determines_error.2.1 (.int (-3)) (.int 2000)
      rfl rfl (by decide)
  · exact first_violated_check_determines_error.2.2.1 (.int 1) (.int 1001)
      rfl rfl (by decide) (by decide) (by decide)
  · exact first_violated_check_determines_error.2.2.2.2.1 (.int 0) (.int 11) (.int 5)
      rfl rfl rfl (by decide)
  · exact first_violated_check_determines_error.2.2.2.2.2.2.2.1 2200 0 99 (by decide)
  · exact first_violated_check_determines_error.2.2.2.2.2.2.2.2.2.2 2020 1 1
      (by decide) (by decide) (by decide)

/-- C9: boolean arguments are never rejected by the InvalidType checks of
the three functions, because Python's `bool` is a subclass of `int`: the
isinstance checks accept True and False, so `billCalc(True, True)` returns
201 and `suggestion(True, 10, 10)` does not raise TypeError (True is the
integer 1, inside `[1, 10]`). -/
theorem bool_arguments_pass_type_checks :
    (∀ b : Bool, isNumeric (.bool b) = true ∧ isIntLike (.bool b) = true) ∧
    (∀ b c : Bool, exceptIsTypeError (billCalc (.bool b) (.bool c)) = false) ∧
    (∀ a b c : Bool, exceptIsTypeError (suggestion (.bool a) (.bool b) (.bool c)) = false) ∧
    (∀ a b c : Bool, exceptIsTypeError (dateCalc (.bool a) (.bool b) (.bool c)) = false) ∧
    billCalc (.bool true) (.bool true) = .ok 201 ∧
    suggestion (.bool true) (.int 10) (.int 10) = .ok (some "Pursue the case") := by
  decide

end
